import Mathlib

/-!
Shallow embedding of `src/main.py` (Salesforce-to-CSV/Parquet extraction
script) and proofs about its claimed properties.

Modelling conventions:
  - Python scalars parsed from the Salesforce JSON responses become `JVal`.
  - A pandas `DataFrame` becomes a column-name list plus a row list of cells.
  - Exceptions escaping a statement become `Except PyErr` results.
  - File-system effects (`to_csv`, `to_parquet`, `shutil.rmtree`, `mkdir`)
    become explicit data: a `FileWrite` list, and a state record `FS`.
  - The thread pool becomes a step relation on an abstract pool state.
-/

set_option maxHeartbeats 1000000

deriving instance DecidableEq for Except

namespace SfToParquet

/-- JSON scalar value as returned by the Salesforce API for one field of one
record; `simple_salesforce` parses the response body, so cells arrive as plain
Python scalars (string, integer, boolean or None). -/
inductive JVal where
  | str (s : String)
  | int (n : Int)
  | bool (b : Bool)
  | null
deriving DecidableEq

/-- One raw record: an ordered mapping from field name to scalar value, one
element of the record list the API returns for a query. -/
abbrev Record : Type := List (String × JVal)

/-- FieldSpec entry of the schema JSON file: `get_sf_data` reads the keys
`field_api_name` and `type` of each element of `fields`. -/
structure FieldSpec where
  field_api_name : String
  type : String
deriving DecidableEq

/-- ObjectSpec entry of the schema JSON file. The code reads the key
`obj_api_name` (in `get_sf_data`) and the key `obj_name` (in `execute`, for
logging), so a well-formed entry carries both. -/
structure ObjectSpec where
  obj_name : String
  obj_api_name : String
  fields : List FieldSpec
deriving DecidableEq

/-- Response of `Salesforce.query_all` in NORMAL mode: a dict with the keys
`totalSize`, `done` and `records`. -/
structure QueryResponse where
  totalSize : Nat
  done : Bool
  records : List Record
deriving DecidableEq

/-- Data returned by the fetch step, per execution mode: BULK mode's
`SFBulkType.query_all` returns the bare record list, NORMAL mode's
`Salesforce.query_all` returns the full response dict. -/
inductive FetchData where
  | bulk (records : List Record)
  | normal (resp : QueryResponse)
deriving DecidableEq

/-- Record list carried by either kind of fetch result. -/
def FetchData.records : FetchData → List Record
  | .bulk rs => rs
  | .normal r => r.records

/-- Truthiness of the NORMAL-mode `query_all` response under Python's `not`:
the response is a dict that always carries the keys `totalSize`, `done` and
`records`, so the dict is never empty and is therefore always truthy, even
when its `records` list is empty. -/
def responseTruthy (_ : QueryResponse) : Bool := true

/-- Cell of a DataFrame: either an untyped object-dtype cell holding a raw
scalar, a cell already coerced to a concrete dtype, or a missing value. -/
inductive Cell where
  | jv (v : JVal)
  | i (n : Int)
  | f (q : Rat)
  | b (v : Bool)
  | nan
deriving DecidableEq

/-- Python exceptions that can escape the statements modelled here. -/
inductive PyErr where
  | keyError (k : String)
  | typeError (msg : String)
  | valueError (msg : String)
deriving DecidableEq

/-- Pandas DataFrame: ordered column names and rows of cells (each row lists
its cells in column order). -/
structure DataFrame where
  columns : List String
  rows : List (List Cell)
deriving DecidableEq

/-- Lookup of one key in a raw record (first binding wins, as in a parsed
JSON object whose keys are unique). -/
def recLookup (r : Record) (k : String) : Option JVal :=
  (r.find? (fun p => p.1 == k)).map (fun p => p.2)

/-- Column labels `pd.DataFrame` infers from a list of record dicts: keys in
order of first appearance across the records. -/
def rawColumns (records : List Record) : List String :=
  records.foldl
    (fun acc r => r.foldl
      (fun acc2 p => if acc2.contains p.1 then acc2 else acc2 ++ [p.1]) acc)
    []

/-- Embedding of `pd.DataFrame.from_dict(records)` on a list of record dicts:
one row per record, one column per key, missing keys becoming NaN cells. An
empty record list yields a frame with no columns and no rows. -/
def DataFrame.fromRecords (records : List Record) : DataFrame :=
  let cols := rawColumns records
  ⟨cols, records.map (fun r => cols.map (fun k =>
    match recLookup r k with
    | some v => Cell.jv v
    | none => Cell.nan))⟩

/-- Embedding of `df.drop(col, axis=1)`: removing a column label that is not
present raises a KeyError; otherwise every column with that label is removed
from the header and from every row. -/
def DataFrame.drop (df : DataFrame) (col : String) : Except PyErr DataFrame :=
  if df.columns.contains col then
    .ok ⟨df.columns.filter (fun c => c != col),
         df.rows.map (fun row =>
           ((df.columns.zip row).filter (fun p => p.1 != col)).map (fun p => p.2))⟩
  else .error (.keyError col)

/-- Removal of leading and trailing whitespace, the behaviour of Python
`str.strip()` with no argument. -/
def pyStrip (s : String) : String :=
  ⟨((s.data.dropWhile Char.isWhitespace).reverse.dropWhile Char.isWhitespace).reverse⟩

/-- Digit-string value, failing on any non-digit character. -/
def digitsVal (cs : List Char) : Option Nat :=
  cs.foldl
    (fun acc c => match acc with
      | none => none
      | some n => if c.isDigit then some (n * 10 + (c.toNat - '0'.toNat)) else none)
    (some 0)

/-- Integer conversion on the characters of a stripped string: an optional
sign followed by at least one digit, anything else failing. -/
def pyIntChars (cs : List Char) : Option Int :=
  match cs with
  | '-' :: rest =>
      if rest.isEmpty then none else (digitsVal rest).map (fun n => -(n : Int))
  | '+' :: rest =>
      if rest.isEmpty then none else (digitsVal rest).map (fun n => (n : Int))
  | _ =>
      if cs.isEmpty then none else (digitsVal cs).map (fun n => (n : Int))

/-- Integer conversion applied by a coercion to an integer dtype, following
Python `int(...)` on strings: surrounding whitespace and an optional sign are
accepted, anything else fails. -/
def pyInt? (s : String) : Option Int :=
  pyIntChars (pyStrip s).data

/-- Split of a character list on a separator character, keeping empty
groups, as Python `str.split(sep)` does. -/
def splitOnChar (sep : Char) (cs : List Char) : List (List Char) :=
  cs.foldr
    (fun c acc =>
      match acc with
      | [] => if c = sep then [[], []] else [[c]]
      | g :: gs => if c = sep then [] :: g :: gs else (c :: g) :: gs)
    [[]]

/-- Decimal conversion on the characters of a stripped string: optional sign,
integral part, optional fractional part after a dot. -/
def parseRatChars (cs0 : List Char) : Option Rat :=
  let neg : Bool := match cs0 with | '-' :: _ => true | _ => false
  let cs : List Char :=
    match cs0 with
    | '-' :: rest => rest
    | '+' :: rest => rest
    | _ => cs0
  match splitOnChar '.' cs with
  | [ip] =>
      if ip.isEmpty then none
      else (digitsVal ip).map (fun n => if neg then -(n : Rat) else (n : Rat))
  | [ip, fp] =>
      if ip.isEmpty && fp.isEmpty then none
      else
        match digitsVal ip, digitsVal fp with
        | some n, some m =>
            let q : Rat := (n : Rat) + (m : Rat) / ((10 : Rat) ^ fp.length)
            some (if neg then -q else q)
        | _, _ => none
  | _ => none

/-- Decimal conversion applied by a coercion to a float dtype, following
Python `float(...)` on strings. -/
def parseRat (s : String) : Option Rat :=
  parseRatChars (pyStrip s).data

/-- Cell-level conversion performed by `df.astype` for one declared dtype
tag, on the scalar kinds occurring in parsed Salesforce JSON: an unrecognised
dtype tag raises a TypeError, a value incompatible with the tag raises a
ValueError (object/string dtypes accept everything unchanged). -/
def coerceCell (tag : String) (c : Cell) : Except PyErr Cell :=
  if tag == "object" || tag == "str" || tag == "string" then .ok c
  else if tag == "int64" || tag == "int" then
    match c with
    | .jv (.int n) => .ok (.i n)
    | .jv (.str s) =>
        match pyInt? s with
        | some n => .ok (.i n)
        | none => .error (.valueError s)
    | .jv (.bool v) => .ok (.i (if v then 1 else 0))
    | .jv .null => .error (.valueError "None")
    | .i n => .ok (.i n)
    | _ => .error (.valueError "int64")
  else if tag == "float64" || tag == "float" then
    match c with
    | .jv (.int n) => .ok (.f (n : Rat))
    | .jv (.str s) =>
        match parseRat s with
        | some q => .ok (.f q)
        | none => .error (.valueError s)
    | .jv (.bool v) => .ok (.f (if v then 1 else 0))
    | .jv .null => .ok .nan
    | .i n => .ok (.f (n : Rat))
    | .f q => .ok (.f q)
    | .nan => .ok .nan
    | _ => .error (.valueError "float64")
  else if tag == "bool" then
    match c with
    | .jv (.bool v) => .ok (.b v)
    | .jv (.str s) => .ok (.b (s != ""))
    | .jv (.int n) => .ok (.b (decide (n ≠ 0)))
    | .jv .null => .ok (.b false)
    | .b v => .ok (.b v)
    | _ => .ok (.b true)
  else .error (.typeError tag)

/-- Lookup in an association list with the last binding winning, matching a
Python dict built by `dict(zip(keys, values))`. -/
def dictLookup (m : List (String × String)) (k : String) : Option String :=
  (m.reverse.find? (fun p => p.1 == k)).map (fun p => p.2)

/-- Keys of the dtype mapping dict. -/
def dictKeys (m : List (String × String)) : List String := m.map (fun p => p.1)

/-- Conversion of one row under the dtype mapping: each cell is coerced per
its column's mapped dtype, cells of unmapped columns are unchanged. -/
def coerceRow (m : List (String × String)) (cols : List String) (row : List Cell) :
    Except PyErr (List Cell) :=
  (cols.zip row).mapM (fun p =>
    match dictLookup m p.1 with
    | some tag => coerceCell tag p.2
    | none => .ok p.2)

/-- Embedding of `df.astype(mapping)`: every mapping key must name an
existing column (otherwise pandas raises a KeyError); mapped columns are
coerced cell-by-cell and any single failure fails the whole call, with no
partial result. -/
def DataFrame.astype (df : DataFrame) (m : List (String × String)) :
    Except PyErr DataFrame :=
  if (dictKeys m).all (fun k => df.columns.contains k) then
    match df.rows.mapM (coerceRow m df.columns) with
    | .ok rows2 => .ok ⟨df.columns, rows2⟩
    | .error e => .error e
  else .error (.keyError "astype")

/-- One file produced by the writer step, with the content and options the
call passed. -/
structure FileWrite where
  dir : String
  filename : String
  header : List String
  rows : List (List Cell)
  index : Bool
  compression : Option String
deriving DecidableEq

/-- Embedding of `df.to_csv(output/'csv'/f'{name}.csv', index=False)`. -/
def toCsvWrite (name : String) (df : DataFrame) : FileWrite :=
  ⟨"csv", name ++ ".csv", df.columns, df.rows, false, none⟩

/-- Embedding of `df.to_parquet(output/'pq'/f'{name}.parquet',
engine='pyarrow', compression='snappy', index=False)`. -/
def toParquetWrite (name : String) (df : DataFrame) : FileWrite :=
  ⟨"pq", name ++ ".parquet", df.columns, df.rows, false, some "snappy"⟩

/-- Stripped field names of one ObjectSpec, as built by the list
comprehension `[str(f['field_api_name']).strip() for f in fields]`. -/
def field_names (spec : ObjectSpec) : List String :=
  spec.fields.map (fun f => pyStrip f.field_api_name)

/-- SOQL query string built by `get_sf_data`:
`f'SELECT {",".join(field_names)} FROM {sf_obj_name}'`. -/
def soqlQuery (spec : ObjectSpec) : String :=
  "SELECT " ++ String.intercalate "," (field_names spec) ++ " FROM " ++ spec.obj_api_name

/-- Dtype mapping `dict(zip(field_names, field_types))` of one ObjectSpec. -/
def dict_fields (spec : ObjectSpec) : List (String × String) :=
  (field_names spec).zip (spec.fields.map (fun f => f.type))

/-- Tail of `get_sf_data` after a fetch that passed the empty check: build
the DataFrame, drop the `attributes` envelope column, coerce per the declared
types, then write the CSV file and the parquet file and return the row count.
An exception at any step aborts the task before any write happens. -/
def processFrame (spec : ObjectSpec) (df0 : DataFrame) :
    List FileWrite × Except PyErr Nat :=
  match df0.drop "attributes" with
  | .error e => ([], .error e)
  | .ok df1 =>
    match df1.astype (dict_fields spec) with
    | .error e => ([], .error e)
    | .ok df2 =>
      ([toCsvWrite spec.obj_api_name df2, toParquetWrite spec.obj_api_name df2],
       .ok df2.rows.length)

/-- Embedding of `get_sf_data`: one task's fetch-coerce-write pipeline. The
first component lists the file writes the task performed; the second is the
returned row count, or the Python exception escaping the task. In the BULK
branch the empty check `if not data` tests the record list itself; in the
NORMAL branch it tests the whole response dict, whose truthiness is captured
by `responseTruthy`. -/
def get_sf_data (spec : ObjectSpec) (fetched : FetchData) :
    List FileWrite × Except PyErr Nat :=
  match fetched with
  | .bulk records =>
      if records.isEmpty then ([], .ok 0)
      else processFrame spec (DataFrame.fromRecords records)
  | .normal resp =>
      if responseTruthy resp then
        processFrame spec (DataFrame.fromRecords resp.records)
      else ([], .ok 0)

/-- Log lines emitted by `execute` for completed futures. -/
inductive LogLine where
  | warning (msg : String)
  | info (msg : String)
deriving DecidableEq

/-- Message text of a Python exception, as interpolated into a log line. -/
def pyErrMsg : PyErr → String
  | .keyError k => "KeyError: " ++ k
  | .typeError m => "TypeError: " ++ m
  | .valueError m => "ValueError: " ++ m

/-- Handling of one completed future in `execute`: `future.result()` re-raises
the exception the task died with, which the surrounding `try/except Exception`
converts into a warning line naming the object and the error; a normal result
is logged at info level with the object name and the returned count. -/
def taskLog (t : ObjectSpec × FetchData) : LogLine :=
  match (get_sf_data t.1 t.2).2 with
  | .error e => .warning (t.1.obj_name ++ " generated exception: " ++ pyErrMsg e)
  | .ok n => .info (t.1.obj_name ++ " has " ++ toString n ++ " fields.")

/-- Embedding of the result-collection loop of `execute`: every submitted
task's future is awaited via `as_completed`, and each produces exactly one log
line; per-task exceptions are caught inside the loop body, so the loop always
runs to completion. The model fixes submission order for the output list; the
real completion order is some permutation of it, which no claim here depends
on. -/
def execute (tasks : List (ObjectSpec × FetchData)) : List LogLine :=
  tasks.map taskLog

/-- Embedding of the future-keyed dict built in `execute`:
`{executor.submit(get_sf_data, sf, obj): obj for obj in list_sf_objects}`.
Every call to `submit` returns a fresh `Future` object, so the dict keys are
pairwise distinct even when the specs themselves are duplicated; a future is
modelled by its submission index. -/
def genr (specs : List ObjectSpec) : List (Nat × ObjectSpec) :=
  specs.enum

/-- Abstract state of the worker pool: how many submitted tasks are still
queued, currently executing, and finished. -/
structure PoolState where
  pending : Nat
  running : Nat
  completed : Nat
deriving DecidableEq

/-- Pool state right after `execute` submits its tasks: one pending task per
ObjectSpec in the input list, none running yet. -/
def initState (specs : List ObjectSpec) : PoolState :=
  ⟨specs.length, 0, 0⟩

/-- Modelled from the spec: scheduling steps of the bounded worker pool
(`ThreadPoolExecutor(max_workers=W)`), an external library whose contract the
spec states — a queued task may start only while fewer than W tasks are
running, and a running task may finish at any time. -/
inductive PoolStep (W : Nat) : PoolState → PoolState → Prop where
  | start (p r c : Nat) (hp : 0 < p) (hr : r < W) :
      PoolStep W ⟨p, r, c⟩ ⟨p - 1, r + 1, c⟩
  | finish (p r c : Nat) (hr : 0 < r) :
      PoolStep W ⟨p, r, c⟩ ⟨p, r - 1, c + 1⟩

/-- Pool states reachable from a given start state. -/
inductive PoolReach (W : Nat) (s0 : PoolState) : PoolState → Prop where
  | refl : PoolReach W s0 s0
  | step {s s' : PoolState} : PoolReach W s0 s → PoolStep W s s' → PoolReach W s0 s'

/-- File-system state the start-up code touches: the contents of the two
output directories, and existence of the input files and the log directory. -/
structure FS where
  csvFiles : List String
  pqFiles : List String
  configExists : Bool
  jsonExists : Bool
  logDirExists : Bool
deriving DecidableEq

/-- Embedding of `pre_steps`: for each of `csv` and `pq`, remove the whole
directory tree (destroying the previous run's files) and recreate it empty;
only afterwards check that the config and schema files exist, exiting with
code 1 when either is missing; finally create the log directory. The second
component is `some code` when the process exits here. -/
def pre_steps (fs : FS) : FS × Option Nat :=
  let wiped : FS := ⟨[], [], fs.configExists, fs.jsonExists, fs.logDirExists⟩
  if fs.configExists && fs.jsonExists then
    (⟨[], [], fs.configExists, fs.jsonExists, true⟩, none)
  else (wiped, some 1)

/-- Outcome of the `Salesforce(...)` login attempt in `get_sf_conn`. -/
inductive AuthOutcome where
  | ok
  | authFailed
  | connError
deriving DecidableEq

/-- Environment of one top-level run: which input files exist, whether the
config file parses with the required `[salesforce]`/`[proc]` keys, the
authentication outcome, whether the schema JSON parses, whether the configured
`threads` value is a valid positive integer, and the per-object tasks handed
to `execute`. -/
structure Env where
  configExists : Bool
  jsonExists : Bool
  configKeysPresent : Bool
  auth : AuthOutcome
  jsonWellFormed : Bool
  threadsValid : Bool
  tasks : List (ObjectSpec × FetchData)
deriving DecidableEq

/-- Exit code of one full run of the script, following the order of the
top-level statements: `pre_steps` exits 1 on a missing input file; a missing
config section/key raises an uncaught KeyError (interpreter exit code 1);
`get_sf_conn` calls `sys.exit(1)` on authentication failure or any other
connection error; malformed schema JSON raises an uncaught decode error; an
invalid `threads` value makes `ThreadPoolExecutor(max_workers=int(threads))`
raise uncaught. Per-object failures are consumed inside `execute` and never
escape, so a run that reaches `execute` finishes with code 0. -/
def mainExitCode (env : Env) : Nat :=
  if !(env.configExists && env.jsonExists) then 1
  else if !env.configKeysPresent then 1
  else match env.auth with
    | .authFailed => 1
    | .connError => 1
    | .ok =>
      if !env.jsonWellFormed then 1
      else if !env.threadsValid then 1
      else 0

/-- Exit code as the claim words it: 1 exactly when the config or schema file
is missing, on authentication failure, or on an unexpected connection error;
0 otherwise. -/
def claimedExitCode (env : Env) : Nat :=
  if !(env.configExists && env.jsonExists) then 1
  else match env.auth with
    | .authFailed => 1
    | .connError => 1
    | .ok => 0

/-- Query string as the claim words it: the raw field API names comma-joined
in FieldSpec order, with no stripping. -/
def claimedQuery (spec : ObjectSpec) : String :=
  "SELECT " ++ String.intercalate "," (spec.fields.map (fun f => f.field_api_name)) ++
    " FROM " ++ spec.obj_api_name

/-- Sample spec with string-typed fields (the `Account` object of the spec's
test scenario). -/
def accountSpec : ObjectSpec :=
  ⟨"Account", "Account", [⟨"Id", "object"⟩, ⟨"Name", "object"⟩]⟩

/-- Sample spec with an integer-typed field (the `Contact` object of the
spec's test scenario). -/
def contactSpec : ObjectSpec :=
  ⟨"Contact", "Contact", [⟨"Id", "object"⟩, ⟨"Age", "int64"⟩]⟩

/-- NORMAL-mode response for an object with zero rows. -/
def emptyNormalResp : QueryResponse := ⟨0, true, []⟩

/-- Three well-formed Account records, each carrying the API's `attributes`
envelope field. -/
def accountRecords : List Record :=
  [[("attributes", JVal.str "meta"), ("Id", JVal.str "001"), ("Name", JVal.str "Acme")],
   [("attributes", JVal.str "meta"), ("Id", JVal.str "002"), ("Name", JVal.str "Globex")],
   [("attributes", JVal.str "meta"), ("Id", JVal.str "003"), ("Name", JVal.str "Initech")]]

/-- One Contact record whose `Age` value is alphabetic text, incompatible
with the declared `int64` dtype. -/
def badContactRecords : List Record :=
  [[("attributes", JVal.str "meta"), ("Id", JVal.str "003"), ("Age", JVal.str "abc")]]

/-- DataFrame the Contact task holds after dropping `attributes` from the
frame built over `badContactRecords`. -/
def badDf1 : DataFrame :=
  ⟨["Id", "Age"], [[Cell.jv (JVal.str "003"), Cell.jv (JVal.str "abc")]]⟩

/-- DataFrame the Account task holds after dropping `attributes` (and after
the identity coercion to object dtypes). -/
def accountDf : DataFrame :=
  ⟨["Id", "Name"],
   [[Cell.jv (JVal.str "001"), Cell.jv (JVal.str "Acme")],
    [Cell.jv (JVal.str "002"), Cell.jv (JVal.str "Globex")],
    [Cell.jv (JVal.str "003"), Cell.jv (JVal.str "Initech")]]⟩

/-- Spec whose single field API name carries surrounding whitespace. -/
def wsSpec : ObjectSpec :=
  ⟨"Account", "Account", [⟨" Id ", "object"⟩]⟩

/-- One succeeding task: Account with three rows fetched in BULK mode. -/
def goodTask : ObjectSpec × FetchData := (accountSpec, .bulk accountRecords)

/-- One failing task: Contact whose record set contains a value incompatible
with its declared integer dtype. -/
def badTask : ObjectSpec × FetchData := (contactSpec, .bulk badContactRecords)

/-- File-system state left by a previous run, with the input config file now
missing. -/
def staleFs : FS :=
  ⟨["Account.csv"], ["Account.parquet"], false, true, true⟩

/-- Environment where both input files exist and authentication would
succeed, but the config file lacks the required `[salesforce]` section. -/
def badConfigEnv : Env :=
  ⟨true, true, false, .ok, true, true, []⟩

/-- Helper: once the fetch passes the empty check, both execution modes run
the same DataFrame pipeline over the fetched records. For the NORMAL mode
this needs no assumption at all, because the response dict is always truthy;
for the BULK mode it needs the record list to be non-empty. -/
theorem get_sf_data_of_records_ne_nil (spec : ObjectSpec) (fetched : FetchData)
    (hne : fetched.records ≠ []) :
    get_sf_data spec fetched = processFrame spec (DataFrame.fromRecords fetched.records) := by
  cases fetched with
  | bulk rs =>
    have h : rs.isEmpty = false := by
      simpa [List.isEmpty_iff] using hne
    simp [get_sf_data, FetchData.records, h]
  | normal resp =>
    simp [get_sf_data, FetchData.records, responseTruthy]

/-- Helper: every file `processFrame` writes is named by the base filename of
the very object being processed, in one of the two output directories. -/
theorem processFrame_writes (spec : ObjectSpec) (df0 : DataFrame)
    (w : FileWrite) (hw : w ∈ (processFrame spec df0).1) :
    w.filename = spec.obj_api_name ++ ".csv" ∨
      w.filename = spec.obj_api_name ++ ".parquet" := by
  unfold processFrame at hw
  cases hdrop : df0.drop "attributes" with
  | error e => rw [hdrop] at hw; simp at hw
  | ok df1 =>
    rw [hdrop] at hw
    dsimp only at hw
    cases htype : df1.astype (dict_fields spec) with
    | error e => rw [htype] at hw; simp at hw
    | ok df2 =>
      rw [htype] at hw
      dsimp only at hw
      simp only [List.mem_cons, List.mem_singleton, List.not_mem_nil, or_false] at hw
      rcases hw with hw | hw
      · left; rw [hw]; rfl
      · right; rw [hw]; rfl

/-- Helper: every file any task writes is named by that task's own object. -/
theorem get_sf_data_writes (spec : ObjectSpec) (fetched : FetchData)
    (w : FileWrite) (hw : w ∈ (get_sf_data spec fetched).1) :
    w.filename = spec.obj_api_name ++ ".csv" ∨
      w.filename = spec.obj_api_name ++ ".parquet" := by
  cases fetched with
  | bulk rs =>
    by_cases h : rs.isEmpty
    · simp [get_sf_data, h] at hw
    · exact processFrame_writes spec _ w (by simpa [get_sf_data, h] using hw)
  | normal resp =>
    exact processFrame_writes spec _ w
      (by simpa [get_sf_data, responseTruthy] using hw)

/-- Helper: a successful `astype` never changes the column labels. -/
theorem astype_columns (df : DataFrame) (m : List (String × String))
    (df2 : DataFrame) (h : df.astype m = .ok df2) : df2.columns = df.columns := by
  unfold DataFrame.astype at h
  split at h
  · cases hrows : df.rows.mapM (coerceRow m df.columns) with
    | ok rows2 => rw [hrows] at h; cases h; rfl
    | error e => rw [hrows] at h; cases h
  · cases h

/-- C1: the claim says an object whose fetch yields zero rows returns
row_count 0 as a success in both modes. The code violates this in NORMAL
mode: the empty check `if not data` tests the whole `query_all` response
dict, which still carries its `totalSize`/`done`/`records` keys and is
therefore truthy, so the zero-row case reaches the DataFrame, which then has
no columns, and `.drop('attributes', axis=1)` raises a KeyError that fails
the task. This theorem evaluates the code at the failing input. -/
theorem c1_normal_zero_rows_key_error :
    get_sf_data contactSpec (.normal emptyNormalResp) =
      ([], .error (.keyError "attributes")) ∧
    get_sf_data contactSpec (.bulk []) = ([], .ok 0) := by
  constructor <;> rfl

/-- C4: `execute` builds its future-keyed dict with one `submit` call per
element of the input list; because every future is a fresh dict key, the dict
holds exactly one entry per list element, in submission order, even when the
list contains duplicate specs — no element is skipped or run twice. -/
theorem c4_one_task_per_spec (specs : List ObjectSpec) :
    (genr specs).map Prod.snd = specs ∧
    ((genr specs).map Prod.fst).Nodup ∧
    (genr specs).length = specs.length := by
  refine ⟨List.enum_map_snd specs, List.nodup_enum_map_fst specs, by simp [genr]⟩

/-- C5: from the pool state `execute` creates (all tasks pending, none
running), every state reachable under the bounded pool's scheduling steps has
at most W tasks running, so at no point do more than W tasks execute
concurrently. -/
theorem c5_worker_bound (specs : List ObjectSpec) (W : Nat) (s : PoolState)
    (h : PoolReach W (initState specs) s) : s.running ≤ W := by
  induction h with
  | refl => exact Nat.zero_le W
  | step hreach hstep ih =>
    cases hstep with
    | start p r c hp hr => exact hr
    | finish p r c hr => simp only at ih ⊢; omega

/-- Witness for C5 at a concrete pool: two specs, worker budget 2, the
initial state itself. -/
theorem c5_witness :
    PoolReach 2 (initState [accountSpec, contactSpec]) (initState [accountSpec, contactSpec]) ∧
    (initState [accountSpec, contactSpec]).running ≤ 2 :=
  ⟨PoolReach.refl,
   c5_worker_bound [accountSpec, contactSpec] 2 _ PoolReach.refl⟩

/-- C10: `pre_steps` wipes and recreates both output directories before it
checks that the config and schema files exist, so a run that exits with code
1 on a missing input file has already emptied the previous run's `csv` and
`pq` directories. -/
theorem c10_wipe_before_check (fs : FS)
    (h : fs.configExists = false ∨ fs.jsonExists = false) :
    (pre_steps fs).2 = some 1 ∧ (pre_steps fs).1.csvFiles = [] ∧
      (pre_steps fs).1.pqFiles = [] := by
  rcases fs with ⟨cf, pf, ce, je, ld⟩
  rcases h with h | h <;> simp only at h <;> subst h <;> simp [pre_steps]

/-- Witness for C10: a file system holding a previous run's outputs with the
config file missing. -/
theorem c10_witness :
    (staleFs.configExists = false ∨ staleFs.jsonExists = false) ∧
    ((pre_steps staleFs).2 = some 1 ∧ (pre_steps staleFs).1.csvFiles = [] ∧
      (pre_steps staleFs).1.pqFiles = []) :=
  ⟨Or.inl rfl, c10_wipe_before_check staleFs (Or.inl rfl)⟩

/-- C2: every per-task exception is caught at the task boundary in
`execute`'s result loop and turned into a warning line carrying the task's
object name and the error detail; `execute` is total (never re-raises), and
every submitted task — whatever the others do — contributes its own outcome
line, one line per task. -/
theorem c2_failure_isolation (tasks : List (ObjectSpec × FetchData))
    (t : ObjectSpec × FetchData) (ht : t ∈ tasks) :
    (execute tasks).length = tasks.length ∧
    taskLog t ∈ execute tasks ∧
    (∀ e, (get_sf_data t.1 t.2).2 = .error e →
      taskLog t = .warning (t.1.obj_name ++ " generated exception: " ++ pyErrMsg e)) ∧
    (∀ n, (get_sf_data t.1 t.2).2 = .ok n →
      taskLog t = .info (t.1.obj_name ++ " has " ++ toString n ++ " fields.")) := by
  refine ⟨by simp [execute], List.mem_map_of_mem taskLog ht, ?_, ?_⟩
  · intro e he; unfold taskLog; rw [he]
  · intro n hn; unfold taskLog; rw [hn]

/-- Witness for C2: a batch holding one failing task (Contact, coercion
error) and one succeeding task (Account); the failing task is logged as a
warning with its object name and the error, and the succeeding task's own
outcome line is still produced. -/
theorem c2_witness :
    badTask ∈ [badTask, goodTask] ∧
    (execute [badTask, goodTask]).length = 2 ∧
    taskLog badTask = .warning "Contact generated exception: ValueError: abc" ∧
    taskLog goodTask ∈ execute [badTask, goodTask] := by
  have h1 := c2_failure_isolation [badTask, goodTask] badTask (List.mem_cons_self _ _)
  have h2 := c2_failure_isolation [badTask, goodTask] goodTask
    (List.mem_cons_of_mem _ (List.mem_cons_self _ _))
  exact ⟨List.mem_cons_self _ _, h1.1.trans rfl,
    h1.2.2.1 (.valueError "abc") rfl, h2.2.1⟩

/-- C3: a record set containing a value incompatible with its field's
declared type makes `astype` raise, which fails the whole task with no file
written (the writes both come after the coercion); and every file any task
ever writes is named by that task's own object, so the failing task cannot
touch output files written for other objects. -/
theorem c3_coercion_failure_no_output (spec : ObjectSpec) (fetched : FetchData)
    (df1 : DataFrame) (e : PyErr)
    (hne : fetched.records ≠ [])
    (hdrop : (DataFrame.fromRecords fetched.records).drop "attributes" = .ok df1)
    (htype : df1.astype (dict_fields spec) = .error e) :
    get_sf_data spec fetched = ([], .error e) ∧
    (∀ (spec2 : ObjectSpec) (fetched2 : FetchData) (w : FileWrite),
      w ∈ (get_sf_data spec2 fetched2).1 →
      w.filename = spec2.obj_api_name ++ ".csv" ∨
        w.filename = spec2.obj_api_name ++ ".parquet") := by
  refine ⟨?_, fun spec2 fetched2 w hw => get_sf_data_writes spec2 fetched2 w hw⟩
  rw [get_sf_data_of_records_ne_nil spec fetched hne]
  unfold processFrame
  rw [hdrop]
  dsimp only
  rw [htype]

/-- Witness for C3: the Contact task over one record whose `Age` cell is
alphabetic text while the declared dtype is `int64`: the task errors with a
ValueError and performs no write. -/
theorem c3_witness :
    ((FetchData.bulk badContactRecords).records ≠ [] ∧
      (DataFrame.fromRecords (FetchData.bulk badContactRecords).records).drop
        "attributes" = .ok badDf1 ∧
      badDf1.astype (dict_fields contactSpec) = .error (.valueError "abc")) ∧
    get_sf_data contactSpec (.bulk badContactRecords) =
      ([], .error (.valueError "abc")) := by
  refine ⟨⟨by decide, by decide, by decide⟩, ?_⟩
  exact (c3_coercion_failure_no_output contactSpec (.bulk badContactRecords) badDf1
    (.valueError "abc") (by decide) (by decide) (by decide)).1

/-- C6: when the coercion succeeds, the task persists the coerced table
exactly twice — a CSV file and a snappy-compressed parquet file, both with
base filename the object's API name, both with the same rows, a header of the
field names and no index column — and returns the coerced table's row count.
The column hypothesis states that the fetch returned exactly the declared
field names (plus the dropped `attributes` envelope). -/
theorem c6_dual_write (spec : ObjectSpec) (fetched : FetchData)
    (df1 df2 : DataFrame)
    (hne : fetched.records ≠ [])
    (hdrop : (DataFrame.fromRecords fetched.records).drop "attributes" = .ok df1)
    (hcols : df1.columns = spec.fields.map (fun f => f.field_api_name))
    (htype : df1.astype (dict_fields spec) = .ok df2) :
    get_sf_data spec fetched =
      ([⟨"csv", spec.obj_api_name ++ ".csv",
          spec.fields.map (fun f => f.field_api_name), df2.rows, false, none⟩,
        ⟨"pq", spec.obj_api_name ++ ".parquet",
          spec.fields.map (fun f => f.field_api_name), df2.rows, false, some "snappy"⟩],
       .ok df2.rows.length) := by
  rw [get_sf_data_of_records_ne_nil spec fetched hne]
  unfold processFrame
  rw [hdrop]
  dsimp only
  rw [htype]
  dsimp only
  have h2 : df2.columns = spec.fields.map (fun f => f.field_api_name) :=
    (astype_columns df1 (dict_fields spec) df2 htype).trans hcols
  unfold toCsvWrite toParquetWrite
  rw [h2]

/-- Witness for C6: the three-row Account fetch with string-typed fields is
written once as `Account.csv` and once as snappy-compressed
`Account.parquet`, with header `Id, Name` and no index, and the task returns
row count 3. -/
theorem c6_witness :
    ((FetchData.bulk accountRecords).records ≠ [] ∧
      (DataFrame.fromRecords (FetchData.bulk accountRecords).records).drop
        "attributes" = .ok accountDf ∧
      accountDf.columns = accountSpec.fields.map (fun f => f.field_api_name) ∧
      accountDf.astype (dict_fields accountSpec) = .ok accountDf) ∧
    get_sf_data accountSpec (.bulk accountRecords) =
      ([⟨"csv", "Account.csv", ["Id", "Name"], accountDf.rows, false, none⟩,
        ⟨"pq", "Account.parquet", ["Id", "Name"], accountDf.rows, false, some "snappy"⟩],
       .ok 3) := by
  refine ⟨⟨by decide, by decide, by decide, by decide⟩, ?_⟩
  exact c6_dual_write accountSpec (.bulk accountRecords) accountDf accountDf
    (by decide) (by decide) (by decide) (by decide)

/-- C7 counterexample: for an ObjectSpec whose single field API name is
`" Id "`, the issued query is `SELECT Id FROM Account`, not the claim's exact
string `SELECT  Id  FROM Account`, because `get_sf_data` strips each field
name before joining. -/
theorem c7_counterexample : soqlQuery wsSpec ≠ claimedQuery wsSpec := by decide

/-- C7 amended: the query is exactly `SELECT ` followed by the comma-joined
whitespace-stripped field API names in FieldSpec order, followed by ` FROM `
and the object API name; whenever no declared field name carries surrounding
whitespace this coincides with the claim's exact string. -/
theorem c7_query_stripped (spec : ObjectSpec)
    (h : ∀ f ∈ spec.fields, pyStrip f.field_api_name = f.field_api_name) :
    soqlQuery spec =
      "SELECT " ++
        String.intercalate "," (spec.fields.map (fun f => pyStrip f.field_api_name)) ++
        " FROM " ++ spec.obj_api_name ∧
    soqlQuery spec = claimedQuery spec := by
  have hmap : field_names spec = spec.fields.map (fun f => f.field_api_name) :=
    List.map_congr_left h
  exact ⟨rfl, by unfold soqlQuery claimedQuery; rw [hmap]⟩

/-- Witness for C7 at the Account spec, whose field names carry no
whitespace. -/
theorem c7_witness :
    (∀ f ∈ accountSpec.fields, pyStrip f.field_api_name = f.field_api_name) ∧
    soqlQuery accountSpec = claimedQuery accountSpec ∧
    soqlQuery accountSpec = "SELECT Id,Name FROM Account" := by
  have h : ∀ f ∈ accountSpec.fields, pyStrip f.field_api_name = f.field_api_name := by
    decide
  exact ⟨h, (c7_query_stripped accountSpec h).2, by decide⟩

/-- C8 counterexample: in an environment where both input files exist,
authentication would succeed and there is no connection error, but the config
file lacks the required `[salesforce]` section, the claim's enumeration
demands exit code 0 while the run dies with an uncaught KeyError, i.e. exit
code 1. -/
theorem c8_counterexample :
    claimedExitCode badConfigEnv = 0 ∧ mainExitCode badConfigEnv = 1 :=
  ⟨rfl, rfl⟩

/-- C8 amended: the process exit code is always 0 or 1; it is 0 exactly when
the config and schema files exist, the config has the required keys,
authentication succeeds, the schema JSON parses and the configured thread
count is valid (so exit 1 also covers missing files, auth failure and
connection errors, as the claim lists); and the per-object task results never
influence the exit code. -/
theorem c8_exit_codes (env : Env) :
    (mainExitCode env = 0 ∨ mainExitCode env = 1) ∧
    (mainExitCode env = 0 ↔
      env.configExists = true ∧ env.jsonExists = true ∧
        env.configKeysPresent = true ∧ env.auth = AuthOutcome.ok ∧
        env.jsonWellFormed = true ∧ env.threadsValid = true) ∧
    (∀ tasks2 : List (ObjectSpec × FetchData),
      mainExitCode ⟨env.configExists, env.jsonExists, env.configKeysPresent,
        env.auth, env.jsonWellFormed, env.threadsValid, tasks2⟩ =
          mainExitCode env) := by
  obtain ⟨ce, je, ck, au, jw, tv, ts⟩ := env
  refine ⟨?_, ?_, fun tasks2 => rfl⟩ <;>
    cases au <;> cases ce <;> cases je <;> cases ck <;> cases jw <;> cases tv <;>
      simp [mainExitCode]

/-- C9: whenever a task takes the empty-result branch (which happens exactly
for a BULK fetch of an empty record list), it returns 0 with no write; and
for any fetch carrying zero rows — in either mode — the task performs no file
write at all, so no CSV and no parquet file is ever created for a zero-row
object. -/
theorem c9_empty_branch_no_files (spec : ObjectSpec) (fetched : FetchData)
    (h : fetched.records = []) :
    (get_sf_data spec fetched).1 = [] ∧
    (∀ rs, fetched = FetchData.bulk rs → get_sf_data spec fetched = ([], .ok 0)) := by
  cases fetched with
  | bulk rs =>
    have hrs : rs = [] := h
    subst hrs
    exact ⟨rfl, fun rs2 _ => rfl⟩
  | normal resp =>
    have hr : resp.records = [] := h
    constructor
    · have hrun : get_sf_data spec (.normal resp) =
          processFrame spec (DataFrame.fromRecords resp.records) := by
        simp [get_sf_data, responseTruthy]
      rw [hrun, hr]
      rfl
    · intro rs2 heq
      exact FetchData.noConfusion heq

/-- Witness for C9: a BULK fetch of zero Contact rows takes the empty branch,
returns 0, and writes nothing. -/
theorem c9_witness :
    (FetchData.bulk ([] : List Record)).records = [] ∧
    ((get_sf_data contactSpec (.bulk [])).1 = [] ∧
      get_sf_data contactSpec (.bulk []) = ([], .ok 0)) := by
  have h := c9_empty_branch_no_files contactSpec (.bulk []) rfl
  exact ⟨rfl, h.1, h.2 [] rfl⟩

end SfToParquet
